import Mathlib

/-!
Verification of the TruthGuard backend (`src/app.py`), a small FastAPI
service with four analysis endpoints (text, url, image, video).

Modelling conventions:
* Python floats are modelled as exact rationals (`ℚ`).
* `random.uniform a b` is modelled as `pyUniform a b u = a + (b - a) * u`,
  where `u` is the underlying draw of `random.random()`, a rational in
  `[0, 1)`; `random.choice([True, False])` is modelled by a `Bool` parameter.
* The optional inference dependency and the classifier it yields are
  external capabilities; they are modelled by an `InferEnv` record: a flag
  for whether the import succeeds and an `Option Classifier` for the
  outcome of constructing the pipeline (with `none` standing for a raised
  exception).  A classifier application that raises is modelled by the
  classifier returning `none`.
* Handlers that can raise `HTTPException` return `Except HTTPException _`;
  handlers that always answer 200 return `Except.ok` on every path.
-/

namespace TruthGuard

/-- HTTP error raised by a handler (FastAPI's `HTTPException`). -/
structure HTTPException where
  status_code : Nat
  detail : String
deriving DecidableEq, Repr

/-- The `flags` object of the mock analysis result (`src/app.py` lines 61-66). -/
structure Flags where
  potentialMisinformation : Bool
  needsFactChecking : Bool
  biasDetected : Bool
  manipulatedContent : Bool
deriving DecidableEq, Repr

/-- The `details` object of the mock analysis result (`src/app.py` lines 68-72). -/
structure Details where
  sentiment : String
  confidence : ℚ
  keyTerms : List String
deriving DecidableEq, Repr

/-- An analysis result.  The three handler shapes (mock, real-inference text,
image) populate different subsets of the optional fields; a field that the
Python dict does not contain is `none`. -/
structure AnalysisResult where
  type : String
  credibilityScore : ℚ
  analysis : String
  flags : Option Flags := none
  sources : Option (List String) := none
  details : Option Details := none
  simplified : Option Bool := none
  basic_analysis : Option Bool := none
deriving DecidableEq, Repr

/-- The JSON body of a successful response: `{"result": ...}`. -/
structure ApiResponse where
  result : AnalysisResult
deriving DecidableEq, Repr

/-- Python's `random.uniform a b`, written as `a + (b - a) * u` with `u` the
draw of `random.random()`, a rational in `[0, 1)`. -/
def pyUniform (a b u : ℚ) : ℚ := a + (b - a) * u

/-- Tokenizer behind `pySplitWs`: walks the characters, accumulating the
current (reversed) token and flushing it at each whitespace run. -/
def splitWsAux : List Char → List Char → List String
  | [], acc => if acc = [] then [] else [⟨acc.reverse⟩]
  | c :: cs, acc =>
    if c.isWhitespace then
      if acc = [] then splitWsAux cs []
      else ⟨acc.reverse⟩ :: splitWsAux cs []
    else splitWsAux cs (c :: acc)

/-- Python's `str.split()` with no separator: split on runs of whitespace and
drop empty pieces (whitespace here is the ASCII class of `Char.isWhitespace`). -/
def pySplitWs (s : String) : List String := splitWsAux s.data []

/-- Two-decimal rendering of a rational, modelling the `:.2f` format used in
the mock analysis string. -/
def format2 (q : ℚ) : String :=
  let cents : Int := round (q * 100)
  let sign := if cents < 0 then "-" else ""
  let n := cents.natAbs
  sign ++ toString (n / 100) ++ "." ++
    (if n % 100 < 10 then "0" else "") ++ toString (n % 100)

/-- The mock scorer `mock_analysis` (`src/app.py` lines 54-73).  `u` is the draw behind
`random.uniform(0.3, 0.9)`; `bias` and `manip` are the two
`random.choice([True, False])` draws.  The guard `input_text.isEmpty`
models Python's truthiness test `if input_text` on a string. -/
def mock_analysis (content_type : String) (input_text : String)
    (u : ℚ) (bias manip : Bool) : AnalysisResult :=
  let mock_score := pyUniform (3/10) (9/10) u
  let is_misinfo := decide (mock_score < 3/5)
  { type := content_type
    credibilityScore := mock_score
    analysis := "Analysis complete. Content scored " ++ format2 mock_score ++
      " for credibility."
    flags := some
      { potentialMisinformation := is_misinfo
        needsFactChecking := is_misinfo
        biasDetected := bias
        manipulatedContent := manip }
    sources := some ["Memory-Optimized Analysis"]
    details := some
      { sentiment := "N/A"
        confidence := mock_score
        keyTerms := if input_text.isEmpty then [] else (pySplitWs input_text).take 5 } }

/-- A sentiment classifier: maps a text to `some (label, score)` on success,
`none` when the invocation raises (any exception, including an empty result
list). -/
abbrev Classifier := String → Option (String × ℚ)

/-- The per-request state of the optional inference capability:
`pipelineAvailable` is whether `import_transformers()` returns a pipeline
(`src/app.py` lines 11-16), and `load` is the outcome of
`pipeline("sentiment-analysis", model=...)` — `none` when that call raises. -/
structure InferEnv where
  pipelineAvailable : Bool
  load : Option Classifier

/-- Execution trace of `analyze_text` (`src/app.py` lines 75-98), recording
alongside the response whether a classifier was acquired during the request
and whether the explicit release (`del classifier; gc.collect()`, lines
88-89) was executed before the response was produced. -/
structure TextTrace where
  acquired : Bool
  explicitlyReleased : Bool
  response : AnalysisResult

/-- Trace-carrying form of `analyze_text`.  Mirrors `src/app.py` lines
75-98: early mock return when the import fails; mock fallback when loading
the pipeline raises (caught by the `except`); mock fallback when invoking
the classifier raises — note that on this path the `del classifier` on line
88 is skipped; and on success the explicit release runs before the real
result is returned. -/
def analyze_text_traced (env : InferEnv) (text : String)
    (u : ℚ) (bias manip : Bool) : TextTrace :=
  if env.pipelineAvailable = false then
    { acquired := false, explicitlyReleased := false
      response := mock_analysis "text" text u bias manip }
  else
    match env.load with
    | none =>
      { acquired := false, explicitlyReleased := false
        response := mock_analysis "text" text u bias manip }
    | some classifier =>
      match classifier (text.take 512) with
      | none =>
        { acquired := true, explicitlyReleased := false
          response := mock_analysis "text" text u bias manip }
      | some (label, score) =>
        { acquired := true, explicitlyReleased := true
          response :=
            { type := "text"
              credibilityScore := score
              analysis := "Text sentiment: " ++ label
              simplified := some true } }

/-- Handler for `POST /analyze/text` (`src/app.py` lines 75-98): every path of the
handler returns a 200 response. -/
def analyze_text (env : InferEnv) (text : String)
    (u : ℚ) (bias manip : Bool) : Except HTTPException ApiResponse :=
  .ok ⟨(analyze_text_traced env text u bias manip).response⟩

/-- Handler for `POST /analyze/url` (`src/app.py` lines 100-102): always the mock result
for type `"url"`. -/
def analyze_url (url : String) (u : ℚ) (bias manip : Bool) :
    Except HTTPException ApiResponse :=
  .ok ⟨mock_analysis "url" url u bias manip⟩

/-- Handler for `POST /analyze/image` (`src/app.py` lines 104-117).  `decodeOutcome`
models the fallible part of the `try` block (reading the upload and
`Image.open`): `.ok (w, h)` is a decoded image of width `w` and height `h`,
`.error msg` carries `str(e)` of the raised exception.  `v` is the draw
behind `random.uniform(0.5, 0.9)`, a draw separate from the mock scorer's. -/
def analyze_image (decodeOutcome : Except String (Nat × Nat)) (v : ℚ) :
    Except HTTPException ApiResponse :=
  match decodeOutcome with
  | .ok (w, h) =>
    .ok ⟨{ type := "image"
           credibilityScore := pyUniform (1/2) (9/10) v
           analysis := "Image processed: " ++ toString w ++ "x" ++
             toString h ++ " pixels"
           basic_analysis := some true }⟩
  | .error msg =>
    .error ⟨500, "Image processing failed: " ++ msg⟩

/-- Handler for `POST /analyze/video` (`src/app.py` lines 119-121).  The Python handler
declares no parameters, so any request body is ignored; it is modelled as an
unused argument. -/
def analyze_video (_requestBody : Option String) :
    Except HTTPException ApiResponse :=
  .error ⟨501, "Video analysis not implemented"⟩

/-- A score lies in the closed unit interval. -/
def inUnit (q : ℚ) : Prop := 0 ≤ q ∧ q ≤ 1

/-! ### Helper lemmas -/

/-- The mock score `random.uniform(0.3, 0.9)` lies in `[3/10, 9/10)`. -/
theorem mock_analysis_score_bounds (ct it : String) (u : ℚ) (bias manip : Bool)
    (hu0 : 0 ≤ u) (hu1 : u < 1) :
    3/10 ≤ (mock_analysis ct it u bias manip).credibilityScore ∧
    (mock_analysis ct it u bias manip).credibilityScore < 9/10 := by
  constructor <;> simp only [mock_analysis, pyUniform] <;> nlinarith

/-- The mock score lies in the closed unit interval. -/
theorem mock_analysis_score_unit (ct it : String) (u : ℚ) (bias manip : Bool)
    (hu0 : 0 ≤ u) (hu1 : u < 1) :
    inUnit (mock_analysis ct it u bias manip).credibilityScore := by
  obtain ⟨h1, h2⟩ := mock_analysis_score_bounds ct it u bias manip hu0 hu1
  exact ⟨by linarith, by linarith⟩

/-- The image score `random.uniform(0.5, 0.9)` lies in `[1/2, 9/10)`. -/
theorem image_score_bounds (v : ℚ) (hv0 : 0 ≤ v) (hv1 : v < 1) :
    1/2 ≤ pyUniform (1/2) (9/10) v ∧ pyUniform (1/2) (9/10) v < 9/10 := by
  constructor <;> simp only [pyUniform] <;> nlinarith

/-! ### Claim theorems -/

/-- C4: for every url input, `POST /analyze/url` returns the mock scorer's
result with type `"url"`, in which `flags.potentialMisinformation` equals
`flags.needsFactChecking`, and both equal the predicate
`credibilityScore < 0.6`. -/
theorem analyze_url_returns_mock_with_flag_equality
    (url : String) (u : ℚ) (bias manip : Bool) :
    analyze_url url u bias manip = .ok ⟨mock_analysis "url" url u bias manip⟩ ∧
    (mock_analysis "url" url u bias manip).type = "url" ∧
    ∃ fl, (mock_analysis "url" url u bias manip).flags = some fl ∧
      fl.potentialMisinformation = fl.needsFactChecking ∧
      (fl.potentialMisinformation = true ↔
        (mock_analysis "url" url u bias manip).credibilityScore < 3/5) := by
  refine ⟨rfl, rfl,
    ⟨{ potentialMisinformation := decide (pyUniform (3/10) (9/10) u < 3/5)
       needsFactChecking := decide (pyUniform (3/10) (9/10) u < 3/5)
       biasDetected := bias
       manipulatedContent := manip }, rfl, rfl, ?_⟩⟩
  simp [mock_analysis]

/-- C7: an upload whose bytes cannot be decoded as an image makes
`POST /analyze/image` fail with status 500, never succeed, and the error
detail carries the underlying decode error's message. -/
theorem analyze_image_decode_failure (msg : String) (v : ℚ) :
    analyze_image (.error msg) v =
      .error ⟨500, "Image processing failed: " ++ msg⟩ ∧
    ∀ r, analyze_image (.error msg) v ≠ .ok r := by
  refine ⟨rfl, fun r h => ?_⟩
  simp [analyze_image] at h

/-- C8: every request to `POST /analyze/video` (including one with no body)
fails with status 501 and the fixed message, and never succeeds. -/
theorem analyze_video_always_not_implemented (body : Option String) :
    analyze_video body = .error ⟨501, "Video analysis not implemented"⟩ ∧
    ∀ r, analyze_video body ≠ .ok r := by
  refine ⟨rfl, fun r h => ?_⟩
  simp [analyze_video] at h

/-- C3: on the text path, when the pipeline is available, loading succeeds
and the classifier succeeds on the input truncated to its first 512
characters, the handler returns exactly the simplified real-inference
result. -/
theorem analyze_text_real_success (env : InferEnv) (text : String) (u : ℚ)
    (bias manip : Bool) (c : Classifier) (label : String) (score : ℚ)
    (hav : env.pipelineAvailable = true) (hload : env.load = some c)
    (hc : c (text.take 512) = some (label, score)) :
    analyze_text env text u bias manip = .ok
      ⟨{ type := "text"
         credibilityScore := score
         analysis := "Text sentiment: " ++ label
         simplified := some true }⟩ := by
  simp [analyze_text, analyze_text_traced, hav, hload, hc]

/-- C3 witness: a concrete classifier returning `("NEGATIVE", 1/4)`. -/
theorem analyze_text_real_success_witness :
    analyze_text ⟨true, some (fun _ => some ("NEGATIVE", 1/4))⟩
      "breaking news" (1/2) true false = .ok
      ⟨{ type := "text"
         credibilityScore := 1/4
         analysis := "Text sentiment: NEGATIVE"
         simplified := some true }⟩ :=
  analyze_text_real_success ⟨true, some (fun _ => some ("NEGATIVE", 1/4))⟩
    "breaking news" (1/2) true false (fun _ => some ("NEGATIVE", 1/4))
    "NEGATIVE" (1/4) rfl rfl rfl

/-- C5: for every content type and input, the mock scorer's score lies in
`[0.3, 0.9)` and its `keyTerms` are the first 5 whitespace-separated tokens
of the input's string form (empty when the input is empty), hence of length
at most 5. -/
theorem mock_analysis_score_range_and_keyTerms (content_type input_text : String)
    (u : ℚ) (bias manip : Bool) (hu0 : 0 ≤ u) (hu1 : u < 1) :
    (3/10 ≤ (mock_analysis content_type input_text u bias manip).credibilityScore ∧
     (mock_analysis content_type input_text u bias manip).credibilityScore < 9/10) ∧
    ∃ d, (mock_analysis content_type input_text u bias manip).details = some d ∧
      d.keyTerms = (pySplitWs input_text).take 5 ∧
      d.keyTerms.length ≤ 5 := by
  refine ⟨mock_analysis_score_bounds content_type input_text u bias manip hu0 hu1,
    ⟨{ sentiment := "N/A"
       confidence := pyUniform (3/10) (9/10) u
       keyTerms := if input_text.isEmpty then []
         else (pySplitWs input_text).take 5 }, rfl, ?_, ?_⟩⟩
  · by_cases h : input_text.isEmpty
    · rw [String.isEmpty_iff] at h
      subst h
      rfl
    · simp [h]
  · by_cases h : input_text.isEmpty <;>
      simp [h, List.length_take]

/-- C5 witness at a six-token input. -/
theorem mock_analysis_score_range_and_keyTerms_witness :
    (3/10 ≤ (mock_analysis "text" "one two three four five six" (2/3) true false).credibilityScore ∧
     (mock_analysis "text" "one two three four five six" (2/3) true false).credibilityScore < 9/10) ∧
    ∃ d, (mock_analysis "text" "one two three four five six" (2/3) true false).details = some d ∧
      d.keyTerms = (pySplitWs "one two three four five six").take 5 ∧
      d.keyTerms.length ≤ 5 :=
  mock_analysis_score_range_and_keyTerms "text" "one two three four five six"
    (2/3) true false (by norm_num) (by norm_num)

/-- C6: an upload decoding to a `w`-by-`h` image makes `POST /analyze/image`
succeed with type `"image"`, a score from an independent draw lying in
`[0.5, 0.9]`, and the analysis string built from the true decoded
dimensions. -/
theorem analyze_image_valid_upload (w h : Nat) (v : ℚ)
    (hv0 : 0 ≤ v) (hv1 : v < 1) :
    analyze_image (.ok (w, h)) v = .ok
      ⟨{ type := "image"
         credibilityScore := pyUniform (1/2) (9/10) v
         analysis := "Image processed: " ++ toString w ++ "x" ++
           toString h ++ " pixels"
         basic_analysis := some true }⟩ ∧
    1/2 ≤ pyUniform (1/2) (9/10) v ∧ pyUniform (1/2) (9/10) v ≤ 9/10 := by
  obtain ⟨h1, h2⟩ := image_score_bounds v hv0 hv1
  exact ⟨rfl, h1, by linarith⟩

/-- C6 witness: a 10-by-20 image yields `"Image processed: 10x20 pixels"`. -/
theorem analyze_image_valid_upload_witness :
    analyze_image (.ok (10, 20)) (1/2) = .ok
      ⟨{ type := "image"
         credibilityScore := pyUniform (1/2) (9/10) (1/2)
         analysis := "Image processed: 10x20 pixels"
         basic_analysis := some true }⟩ ∧
    1/2 ≤ pyUniform (1/2) (9/10) (1/2) ∧ pyUniform (1/2) (9/10) (1/2) ≤ 9/10 :=
  analyze_image_valid_upload 10 20 (1/2) (by norm_num) (by norm_num)

/-- C2: `POST /analyze/text` always answers 200, and on every degraded path
(missing dependency, pipeline construction raising, classifier invocation
raising) the answer is the mock scorer's result. -/
theorem analyze_text_never_fails (env : InferEnv) (text : String)
    (u : ℚ) (bias manip : Bool) :
    (∃ r, analyze_text env text u bias manip = .ok r) ∧
    ((env.pipelineAvailable = false ∨ env.load = none ∨
        ∃ c, env.load = some c ∧ c (text.take 512) = none) →
      analyze_text env text u bias manip =
        .ok ⟨mock_analysis "text" text u bias manip⟩) := by
  constructor
  · exact ⟨_, rfl⟩
  · rintro (hav | hload | ⟨c, hload, hc⟩)
    · simp [analyze_text, analyze_text_traced, hav]
    · by_cases hav : env.pipelineAvailable = false
      · simp [analyze_text, analyze_text_traced, hav]
      · simp [analyze_text, analyze_text_traced, hav, hload]
    · by_cases hav : env.pipelineAvailable = false
      · simp [analyze_text, analyze_text_traced, hav]
      · simp [analyze_text, analyze_text_traced, hav, hload, hc]

/-- C2 witness: with the dependency missing the handler answers 200 with the
mock result. -/
theorem analyze_text_never_fails_witness :
    (∃ r, analyze_text ⟨false, none⟩ "hoax claim" (1/3) false true = .ok r) ∧
    (((⟨false, none⟩ : InferEnv).pipelineAvailable = false ∨
        (⟨false, none⟩ : InferEnv).load = none ∨
        ∃ c, (⟨false, none⟩ : InferEnv).load = some c ∧
          c ("hoax claim".take 512) = none) →
      analyze_text ⟨false, none⟩ "hoax claim" (1/3) false true =
        .ok ⟨mock_analysis "text" "hoax claim" (1/3) false true⟩) :=
  analyze_text_never_fails ⟨false, none⟩ "hoax claim" (1/3) false true

/-- C1: on every handled request of the four analyze endpoints — text with
or without the inference dependency, url, image on a valid upload — the
returned `credibilityScore` lies in `[0, 1]`.  `hclf` is the external
classifier's contract: its confidence is a probability. -/
theorem credibilityScore_in_unit_interval
    (env : InferEnv) (text url : String) (w h : Nat)
    (u u2 v : ℚ) (b1 m1 b2 m2 : Bool)
    (hu0 : 0 ≤ u) (hu1 : u < 1) (hu20 : 0 ≤ u2) (hu21 : u2 < 1)
    (hv0 : 0 ≤ v) (hv1 : v < 1)
    (hclf : ∀ c label score, env.load = some c →
      c (text.take 512) = some (label, score) → 0 ≤ score ∧ score ≤ 1) :
    (∀ r, analyze_text env text u b1 m1 = .ok r →
      inUnit r.result.credibilityScore) ∧
    (∀ r, analyze_url url u2 b2 m2 = .ok r →
      inUnit r.result.credibilityScore) ∧
    (∀ r, analyze_image (.ok (w, h)) v = .ok r →
      inUnit r.result.credibilityScore) := by
  refine ⟨?_, ?_, ?_⟩
  · intro r hr
    simp only [analyze_text, Except.ok.injEq] at hr
    subst hr
    show inUnit (analyze_text_traced env text u b1 m1).response.credibilityScore
    by_cases hav : env.pipelineAvailable = false
    · simp only [analyze_text_traced, if_pos hav]
      exact mock_analysis_score_unit "text" text u b1 m1 hu0 hu1
    · cases hload : env.load with
      | none =>
        simp only [analyze_text_traced, if_neg hav, hload]
        exact mock_analysis_score_unit "text" text u b1 m1 hu0 hu1
      | some c =>
        cases hc : c (text.take 512) with
        | none =>
          simp only [analyze_text_traced, if_neg hav, hload, hc]
          exact mock_analysis_score_unit "text" text u b1 m1 hu0 hu1
        | some ls =>
          obtain ⟨label, score⟩ := ls
          simp only [analyze_text_traced, if_neg hav, hload, hc]
          exact hclf c label score hload hc
  · intro r hr
    simp only [analyze_url, Except.ok.injEq] at hr
    subst hr
    exact mock_analysis_score_unit "url" url u2 b2 m2 hu20 hu21
  · intro r hr
    simp only [analyze_image, Except.ok.injEq] at hr
    subst hr
    obtain ⟨h1, h2⟩ := image_score_bounds v hv0 hv1
    exact ⟨by linarith, by linarith⟩

/-- C1 witness, with the classifier contract non-vacuous: the classifier
answers `("POSITIVE", 4/5)`. -/
theorem credibilityScore_in_unit_interval_witness :
    (∀ r, analyze_text ⟨true, some (fun _ => some ("POSITIVE", 4/5))⟩
        "claim text" (1/2) true false = .ok r →
      inUnit r.result.credibilityScore) ∧
    (∀ r, analyze_url "https" (1/4) false true = .ok r →
      inUnit r.result.credibilityScore) ∧
    (∀ r, analyze_image (.ok (3, 4)) (1/3) = .ok r →
      inUnit r.result.credibilityScore) :=
  credibilityScore_in_unit_interval
    ⟨true, some (fun _ => some ("POSITIVE", 4/5))⟩ "claim text" "https" 3 4
    (1/2) (1/4) (1/3) true false false true
    (by norm_num) (by norm_num) (by norm_num) (by norm_num)
    (by norm_num) (by norm_num)
    (by
      intro c label score hc hinv
      rw [Option.some.injEq] at hc
      subst hc
      simp only [Option.some.injEq, Prod.mk.injEq] at hinv
      obtain ⟨hl, hs⟩ := hinv
      subst hs
      norm_num)

/-- C9 counterexample: a request on which the classifier is acquired (the
pipeline loads) but its invocation raises; the handler jumps to the
`except` block and produces the mock response without having executed the
explicit release (`del classifier`, line 88), so the claim "explicitly
released on every exit path" fails on the inference-error path. -/
theorem analyze_text_release_skipped_on_error :
    (analyze_text_traced ⟨true, some (fun _ => none)⟩
      "faulty" (1/2) true false).acquired = true ∧
    (analyze_text_traced ⟨true, some (fun _ => none)⟩
      "faulty" (1/2) true false).explicitlyReleased = false :=
  ⟨rfl, rfl⟩

/-- C9 amended: the classifier is acquired fresh on each request that loads
it, and the explicit release runs exactly on the success exit path: when
the invocation succeeds the release precedes the response, and when the
invocation raises the handler returns the mock fallback without an explicit
release. -/
theorem analyze_text_release_on_success_only (env : InferEnv) (text : String)
    (u : ℚ) (bias manip : Bool) (c : Classifier)
    (hav : env.pipelineAvailable = true) (hload : env.load = some c) :
    ((∃ ls, c (text.take 512) = some ls) →
      (analyze_text_traced env text u bias manip).acquired = true ∧
      (analyze_text_traced env text u bias manip).explicitlyReleased = true) ∧
    (c (text.take 512) = none →
      (analyze_text_traced env text u bias manip).acquired = true ∧
      (analyze_text_traced env text u bias manip).explicitlyReleased = false) := by
  constructor
  · rintro ⟨⟨label, score⟩, hc⟩
    simp [analyze_text_traced, hav, hload, hc]
  · intro hc
    simp [analyze_text_traced, hav, hload, hc]

/-- C9 amended-claim witness: an environment whose classifier succeeds. -/
theorem analyze_text_release_on_success_only_witness :
    ((∃ ls, (fun _ => some ("POSITIVE", (7:ℚ)/10) : Classifier)
        ("all good".take 512) = some ls) →
      (analyze_text_traced ⟨true, some (fun _ => some ("POSITIVE", (7:ℚ)/10))⟩
        "all good" (1/2) false false).acquired = true ∧
      (analyze_text_traced ⟨true, some (fun _ => some ("POSITIVE", (7:ℚ)/10))⟩
        "all good" (1/2) false false).explicitlyReleased = true) ∧
    ((fun _ => some ("POSITIVE", (7:ℚ)/10) : Classifier)
        ("all good".take 512) = none →
      (analyze_text_traced ⟨true, some (fun _ => some ("POSITIVE", (7:ℚ)/10))⟩
        "all good" (1/2) false false).acquired = true ∧
      (analyze_text_traced ⟨true, some (fun _ => some ("POSITIVE", (7:ℚ)/10))⟩
        "all good" (1/2) false false).explicitlyReleased = false) :=
  analyze_text_release_on_success_only
    ⟨true, some (fun _ => some ("POSITIVE", (7:ℚ)/10))⟩ "all good" (1/2)
    false false (fun _ => some ("POSITIVE", (7:ℚ)/10)) rfl rfl

/-- C10: on the real-inference success path the result carries exactly the
fields `type`, `credibilityScore`, `analysis` and `simplified`; the `flags`,
`sources` and `details` fields populated by the mock path are absent. -/
theorem analyze_text_real_success_field_shape (env : InferEnv) (text : String)
    (u : ℚ) (bias manip : Bool) (c : Classifier) (label : String) (score : ℚ)
    (hav : env.pipelineAvailable = true) (hload : env.load = some c)
    (hc : c (text.take 512) = some (label, score)) :
    ∃ res, analyze_text env text u bias manip = .ok ⟨res⟩ ∧
      res.type = "text" ∧ res.credibilityScore = score ∧
      res.analysis = "Text sentiment: " ++ label ∧
      res.simplified = some true ∧
      res.flags = none ∧ res.sources = none ∧ res.details = none ∧
      res.basic_analysis = none := by
  refine ⟨{ type := "text"
            credibilityScore := score
            analysis := "Text sentiment: " ++ label
            simplified := some true },
    ?_, rfl, rfl, rfl, rfl, rfl, rfl, rfl, rfl⟩
  simp [analyze_text, analyze_text_traced, hav, hload, hc]

/-- C10 witness: a concrete classifier returning `("POSITIVE", 19/20)`. -/
theorem analyze_text_real_success_field_shape_witness :
    ∃ res, analyze_text ⟨true, some (fun _ => some ("POSITIVE", 19/20))⟩
        "daily report" (1/5) false true = .ok ⟨res⟩ ∧
      res.type = "text" ∧ res.credibilityScore = 19/20 ∧
      res.analysis = "Text sentiment: " ++ "POSITIVE" ∧
      res.simplified = some true ∧
      res.flags = none ∧ res.sources = none ∧ res.details = none ∧
      res.basic_analysis = none :=
  analyze_text_real_success_field_shape
    ⟨true, some (fun _ => some ("POSITIVE", 19/20))⟩ "daily report" (1/5)
    false true (fun _ => some ("POSITIVE", 19/20)) "POSITIVE" (19/20)
    rfl rfl rfl

end TruthGuard
